import Mathlib

/-!
# ESP32-SIP: call control and registration state of `sip.c`

A shallow embedding of `src/sip.c`: the string replacement helper, the shared
`sip` record, the four API functions that set intents on it, and one iteration
of the main loop of `sip_task` (registration logic, periodic switch over the
dialog state, status report).

Conventions of the embedding

* A `char *` is an `Option String`: `none` is the NULL pointer, `some s` a
  NUL-terminated string with contents `s`. Allocation (`strdup`, task and
  semaphore creation) is taken to succeed.
* `uint32_t` values are `Nat` reduced modulo `4294967296` where the C
  arithmetic can wrap; the one-bit fields `call`, `answer`, `hangup` are `Bool`.
* The fields `task` and `mutex` only record that the handle exists. Taking
  and giving the mutex is not modelled: every API function and every loop
  iteration is one atomic step.
* Name lookup, building and sending the REGISTER request only log on failure;
  they leave every variable of the loop untouched and are not modelled.
* The callback is an uninterpreted pointer (`Option Nat`); calling it is
  recorded in the ghost list `notified` and has no other effect. The pairs
  `(now, retry)` of every scheduled registration attempt are recorded in the
  ghost list `attempts`.
-/

namespace SIP

/-! ## Data model -/

/-- Modelled from the spec: the enumeration `sip_state_t` declared in `sip.h`,
which is not part of the sources at hand. The enumerators are the externally
visible states in the order the spec lists them (Idle, Registered,
OutgoingAlerting, OutgoingActive, IncomingAlerting, IncomingActive); the code
relies on `SIP_IDLE` and `SIP_REGISTERED` being the two smallest values. -/
inductive sip_state_t where
  | SIP_IDLE
  | SIP_REGISTERED
  | SIP_OG_ALERT
  | SIP_OG
  | SIP_IC_ALERT
  | SIP_IC
deriving DecidableEq

/-- Numeric value of an enumerator of `sip_state_t`, used by `<=` and `>`. -/
def sip_state_t.val : sip_state_t → Nat
  | .SIP_IDLE => 0
  | .SIP_REGISTERED => 1
  | .SIP_OG_ALERT => 2
  | .SIP_OG => 3
  | .SIP_IC_ALERT => 4
  | .SIP_IC => 5

/-- Internal dialog state of `sip_task` (`sip_task_state_t`, sip.c 60-72). -/
inductive sip_task_state_t where
  | TASK_IDLE
  | TASK_OG_INVITE
  | TASK_OG_WAIT
  | TASK_OG
  | TASK_OG_BYE
  | TASK_IC_ALERT
  | TASK_IC_BUSY
  | TASK_IC_OK
  | TASK_IC
  | TASK_IC_BYE
deriving DecidableEq

/-- The record `sip` (sip.c 74-93). -/
structure Session where
  task : Bool
  mutex : Bool
  callback : Option Nat
  callid : Option String
  ichost : Option String
  icuser : Option String
  icpass : Option String
  ogcli : Option String
  oghost : Option String
  oguri : Option String
  oguser : Option String
  ogpass : Option String
  regexpiry : Nat
  state : sip_state_t
  call : Bool
  answer : Bool
  hangup : Bool
deriving DecidableEq

/-- The initial value `sip = { 0 }`. -/
def Session.zero : Session :=
  { task := false, mutex := false, callback := none, callid := none,
    ichost := none, icuser := none, icpass := none,
    ogcli := none, oghost := none, oguri := none, oguser := none, ogpass := none,
    regexpiry := 0, state := .SIP_IDLE, call := false, answer := false, hangup := false }

/-! ## `replacestring` (sip.c 39-55) -/

/-- The function `replacestring (&target, new)`: the new value of `*target`
and the returned `int`. -/
def replacestring (target : Option String) (new : Option String) : Option String × Int :=
  let new := if new ≠ none ∧ new = some "" then none else new
  let old := target
  if new ≠ none ∧ old ≠ none ∧ old = new then (target, 0)
  else if new = none ∧ old = none then (target, 0)
  else if new ≠ none then (new, 1)
  else (none, 1)

/-! ## API functions (sip.c 133-187) -/

/-- The function `sip_register (host, user, pass, callback)`. -/
def sip_register (host user pass : Option String) (callback : Option Nat) (sip : Session) :
    Session :=
  let sip := { sip with callback := callback }
  let sip := if sip.task = false then { sip with mutex := true, task := true } else sip
  let h := replacestring sip.ichost host
  let u := replacestring sip.icuser user
  let p := replacestring sip.icpass pass
  let sip := { sip with ichost := h.1, icuser := u.1, icpass := p.1 }
  if h.2 + u.2 + p.2 ≠ 0 then { sip with regexpiry := 0 } else sip

/-- The function `sip_call (cli, uri, proxy, user, pass)`: the record afterwards
and the returned `int`. -/
def sip_call (cli uri proxy user pass : Option String) (sip : Session) : Session × Int :=
  let sip :=
    if sip.state.val ≤ sip_state_t.SIP_REGISTERED.val then
      { sip with
        ogcli := (replacestring sip.ogcli cli).1
        oghost := (replacestring sip.oghost proxy).1
        oguri := (replacestring sip.oguri uri).1
        oguser := (replacestring sip.oguser user).1
        ogpass := (replacestring sip.ogpass pass).1
        call := true }
    else sip
  (sip, 0)

/-- The function `sip_answer ()`. -/
def sip_answer (sip : Session) : Session × Int :=
  let sip := if sip.state = .SIP_IC_ALERT then { sip with answer := true } else sip
  (sip, 0)

/-- The function `sip_hangup ()`. -/
def sip_hangup (sip : Session) : Session × Int :=
  let sip :=
    if sip_state_t.SIP_REGISTERED.val < sip.state.val then { sip with hangup := true } else sip
  (sip, 0)

/-! ## The main loop of `sip_task` (sip.c 210-309) -/

/-- The record `sip` together with the local variables of `sip_task` that live
across iterations, and the two ghost lists. -/
structure Loop where
  sip : Session
  state : sip_task_state_t
  retry : Nat
  backoff : Nat
  notified : List sip_state_t
  attempts : List (Nat × Nat)

/-- The loop as `sip_task` enters it: `state = 0`, `retry = 0`, `backoff = 0`. -/
def Loop.start (sip : Session) : Loop :=
  { sip := sip, state := .TASK_IDLE, retry := 0, backoff := 0, notified := [], attempts := [] }

/-- The function `uptime ()`, from the value `us` of `esp_timer_get_time ()`. -/
def uptime (us : Nat) : Nat :=
  (if us / 1000000 ≠ 0 then us / 1000000 else 1) % 4294967296

/-- Registration logic of one tick (sip.c 239-257). -/
def registration (now : Nat) (w : Loop) : Loop :=
  let w := if w.sip.regexpiry < now then { w with sip := { w.sip with regexpiry := 0 } } else w
  if w.sip.regexpiry < (now + 60) % 4294967296 ∧ w.sip.ichost ≠ none ∧ w.retry < now then
    let backoff := if w.backoff = 0 then 1 else w.backoff
    let retry := (now + backoff) % 4294967296
    let backoff := if backoff < 300 then (backoff * 2) % 4294967296 else backoff
    { w with retry := retry, backoff := backoff, attempts := w.attempts ++ [(now, retry)] }
  else w

/-- The value of `sip.regexpiry` after the expiry check that opens the
registration logic (sip.c 240-241), for a tick at `now`. -/
def expired (now : Nat) (regexpiry : Nat) : Nat := if regexpiry < now then 0 else regexpiry

/-- The periodic switch over the dialog state (sip.c 260-298): the loop
afterwards and the value of `status`. Every case of the switch assigns
`status`, so the value it has on entry (`sip.state`) is never read. -/
def periodic (w : Loop) (_status : sip_state_t) : Loop × sip_state_t :=
  match w.state with
  | .TASK_IDLE =>
    let status := sip_state_t.SIP_IDLE
    let w := if w.sip.call then { w with sip := { w.sip with call := false } } else w
    (w, status)
  | .TASK_OG_INVITE => (w, .SIP_IDLE)
  | .TASK_OG_WAIT => (w, .SIP_OG_ALERT)
  | .TASK_OG => (w, .SIP_OG)
  | .TASK_OG_BYE => (w, .SIP_IDLE)
  | .TASK_IC_ALERT => (w, .SIP_IC_ALERT)
  | .TASK_IC_BUSY => (w, .SIP_IDLE)
  | .TASK_IC_OK => (w, .SIP_IC)
  | .TASK_IC => (w, .SIP_IC)
  | .TASK_IC_BYE => (w, .SIP_IDLE)

/-- The two adjustments of `status` that open the report (sip.c 301-304). -/
def reportStatus (regexpiry : Nat) (status : sip_state_t) : sip_state_t :=
  let status := if status = .SIP_IDLE ∧ regexpiry ≠ 0 then .SIP_REGISTERED else status
  let status := if status = .SIP_REGISTERED ∧ ¬ (regexpiry ≠ 0) then .SIP_IDLE else status
  status

/-- Report of a status change (sip.c 300-308). -/
def report (w : Loop) (status : sip_state_t) : Loop :=
  let status := reportStatus w.sip.regexpiry status
  let w :=
    if status.val ≤ sip_state_t.SIP_REGISTERED.val then
      { w with sip := { w.sip with answer := false, hangup := false } }
    else w
  if w.sip.state ≠ status ∧ w.sip.callback ≠ none then
    { w with sip := { w.sip with state := status }, notified := w.notified ++ [status] }
  else w

/-- One maintenance tick: an iteration of the loop in which `select` times out,
with `us` the reading of the timer. -/
def tick (us : Nat) (w : Loop) : Loop :=
  let status := w.sip.state
  let now := uptime us
  let w := registration now w
  let p := periodic w status
  report p.1 p.2

/-- The value of `status` a tick computes, as the report compares it with
`sip.state`. -/
def tickStatus (us : Nat) (w : Loop) : sip_state_t :=
  let w1 := registration (uptime us) w
  let p := periodic w1 w.sip.state
  reportStatus p.1.sip.regexpiry p.2

/-- An iteration of the loop in which `select` reports a datagram
(sip.c 226-235): the datagram of length `len` is read, logged and dropped. -/
def datagram (_len : Int) (w : Loop) : Loop := w

/-- What can happen to the program: a call of an API function, or an iteration
of the main loop. -/
inductive Event where
  | register (host user pass : Option String) (callback : Option Nat)
  | call (cli uri proxy user pass : Option String)
  | answer
  | hangup
  | datagram (len : Int)
  | tick (us : Nat)

/-- Effect of one event. -/
def step (w : Loop) : Event → Loop
  | .register host user pass callback =>
    { w with sip := sip_register host user pass callback w.sip }
  | .call cli uri proxy user pass => { w with sip := (sip_call cli uri proxy user pass w.sip).1 }
  | .answer => { w with sip := (sip_answer w.sip).1 }
  | .hangup => { w with sip := (sip_hangup w.sip).1 }
  | .datagram len => datagram len w
  | .tick us => tick us w

/-- Effect of a sequence of events, first to last. -/
def run (evs : List Event) (w : Loop) : Loop := evs.foldl step w

/-- Delay scheduled by a recorded attempt `(now, retry)`: `retry - now` in
`uint32_t` arithmetic. -/
def delay (a : Nat × Nat) : Nat := (a.2 + 4294967296 - a.1 % 4294967296) % 4294967296

/-! ## Definitions that follow the words of the specification -/

/-- The normalisation of the spec: an empty string is "absent". -/
def norm (new : Option String) : Option String :=
  match new with
  | none => none
  | some s => if s = "" then none else some s

/-- The mapping of dialog states to externally visible states, as the spec
words it. -/
def specMap (d : sip_task_state_t) : sip_state_t :=
  if d = .TASK_OG_WAIT then .SIP_OG_ALERT
  else if d = .TASK_OG then .SIP_OG
  else if d = .TASK_IC_ALERT then .SIP_IC_ALERT
  else if d = .TASK_IC_OK ∨ d = .TASK_IC then .SIP_IC
  else .SIP_IDLE

/-- The derived display rule, as the spec words it. -/
def specDisplay (s : sip_state_t) (e : Nat) : sip_state_t :=
  if s = .SIP_IDLE ∧ e ≠ 0 then .SIP_REGISTERED
  else if s = .SIP_REGISTERED ∧ e = 0 then .SIP_IDLE
  else s

/-! ## State predicates and sample inputs -/

/-- Sample record: registered at `reg.example` until second 1000, an incoming
call alerting. -/
def sampleAlerting : Session :=
  { Session.zero with
    task := true, mutex := true, callback := some 1,
    ichost := some "reg.example", icuser := some "u", icpass := some "p",
    regexpiry := 1000, state := .SIP_IC_ALERT }

/-- Sample record: registered at `reg.example` until second 1000, no call. -/
def sampleRegistered : Session := { sampleAlerting with state := .SIP_REGISTERED }

/-- Sample record: an outgoing call in progress. -/
def sampleOutgoing : Session := { sampleAlerting with state := .SIP_OG }

/-- Sample loop: registered, idle dialog, and an outgoing call just requested
through `sip_call`. -/
def sampleDialling : Loop :=
  Loop.start (sip_call (some "100") (some "200@reg.example") none none none sampleRegistered).1

/-- Sample loop: an incoming call alerting, `answer` and `hangup` both set. -/
def sampleRinging : Loop :=
  { Loop.start { sampleAlerting with answer := true, hangup := true } with
    state := .TASK_IC_ALERT }

/-- Sample loop: the dialog is idle again while `answer` and `hangup` are
still set. -/
def sampleStale : Loop :=
  Loop.start { sampleAlerting with answer := true, hangup := true }

/-- The last status passed to the callback, if any, is the stored `sip.state`,
and no two neighbours in `notified` are equal. -/
def Reported (w : Loop) : Prop :=
  List.Chain' (fun a b => a ≠ b) w.notified ∧ ∀ x ∈ w.notified.getLast?, x = w.sip.state

/-- The state the program as written never leaves. -/
def Quiet (w : Loop) : Prop :=
  w.state = .TASK_IDLE ∧ w.sip.regexpiry = 0 ∧ w.sip.state = .SIP_IDLE ∧
  w.sip.answer = false ∧ w.sip.hangup = false ∧ w.notified = []

/-- A registrar is configured, then ten ticks follow, each late enough for the
retry timer to have run out. -/
def backoffEvents : List Event :=
  [.register (some "reg.example") (some "u") (some "p") (some 1),
   .tick 1000000, .tick 3000000, .tick 6000000, .tick 11000000, .tick 20000000,
   .tick 37000000, .tick 70000000, .tick 135000000, .tick 264000000, .tick 521000000]

/-- Backoff bookkeeping: the stored `backoff` after `n` attempts is 0 for
`n = 0` and `min (2 ^ n) 512` otherwise, and the attempt at (zero-based)
position `k` scheduled a delay of `min (2 ^ k) 512`. -/
def Scheduled (w : Loop) : Prop :=
  w.backoff = (if w.attempts.length = 0 then 0 else min (2 ^ w.attempts.length) 512) ∧
  ∀ (k : Nat) (a : Nat × Nat), w.attempts[k]? = some a → delay a = min (2 ^ k) 512

/-! # Theorems -/

/-! ## `replacestring` -/

theorem replacestring_fst (old new : Option String) : (replacestring old new).1 = norm new := by
  unfold replacestring norm
  rcases new with _ | n <;> rcases old with _ | o <;> simp
  · by_cases h : n = "" <;> simp [h]
  · by_cases h : n = "" <;> simp [h]
    by_cases h2 : o = n <;> simp [h2]

theorem replacestring_snd (old new : Option String) :
    (replacestring old new).2 = if norm new = old then 0 else 1 := by
  unfold replacestring norm
  rcases new with _ | n <;> rcases old with _ | o <;> simp
  · by_cases h : n = "" <;> simp [h]
  · by_cases h : n = "" <;> simp [h]
    by_cases h2 : o = n
    · simp [h2]
    · have h3 : ¬ n = o := fun e => h2 e.symm
      simp [h2, h3]

/-- C8: after `replacestring` the field holds the normalised argument (an absent
or empty argument makes it absent), the function returns 0 exactly when the
normalised argument equals the old value, and it returns non-zero exactly when
the value of the field has changed. -/
theorem replacestring_normalises (old new : Option String) :
    (replacestring old new).1 = norm new ∧
    ((replacestring old new).2 = 0 ↔ norm new = old) ∧
    ((replacestring old new).2 ≠ 0 ↔ (replacestring old new).1 ≠ old) := by
  rw [replacestring_fst, replacestring_snd]
  by_cases h : norm new = old <;> simp [h]

/-! ## API functions -/

/-- C1: with an empty string read as absent, `sip_register` called with the
stored credentials leaves `regexpiry` and the credentials as they are; called
with at least one different credential it stores the three new values and
sets `regexpiry` to 0; and a second call with the same arguments leaves
`regexpiry` at the value it had before that second call. -/
theorem sip_register_idempotent (host user pass : Option String) (cb cb2 : Option Nat)
    (sip : Session) :
    (norm host = sip.ichost ∧ norm user = sip.icuser ∧ norm pass = sip.icpass →
      (sip_register host user pass cb sip).regexpiry = sip.regexpiry ∧
      (sip_register host user pass cb sip).ichost = sip.ichost ∧
      (sip_register host user pass cb sip).icuser = sip.icuser ∧
      (sip_register host user pass cb sip).icpass = sip.icpass) ∧
    (¬ (norm host = sip.ichost ∧ norm user = sip.icuser ∧ norm pass = sip.icpass) →
      (sip_register host user pass cb sip).regexpiry = 0 ∧
      (sip_register host user pass cb sip).ichost = norm host ∧
      (sip_register host user pass cb sip).icuser = norm user ∧
      (sip_register host user pass cb sip).icpass = norm pass) ∧
    (sip_register host user pass cb2 (sip_register host user pass cb sip)).regexpiry =
      (sip_register host user pass cb sip).regexpiry := by
  have key : ∀ (c : Option Nat) (s : Session),
      (sip_register host user pass c s).ichost = norm host ∧
      (sip_register host user pass c s).icuser = norm user ∧
      (sip_register host user pass c s).icpass = norm pass ∧
      (sip_register host user pass c s).regexpiry =
        if norm host = s.ichost ∧ norm user = s.icuser ∧ norm pass = s.icpass
        then s.regexpiry else 0 := by
    intro c s
    unfold sip_register
    simp only [replacestring_fst, replacestring_snd]
    by_cases h1 : norm host = s.ichost <;> by_cases h2 : norm user = s.icuser <;>
      by_cases h3 : norm pass = s.icpass <;> by_cases h4 : s.task = false <;>
      simp [h1, h2, h3, h4]
  obtain ⟨k1, k2, k3, k4⟩ := key cb sip
  refine ⟨?_, ?_, ?_⟩
  · intro h
    rw [k1, k2, k3, k4, if_pos h]
    exact ⟨rfl, h.1, h.2.1, h.2.2⟩
  · intro h
    rw [k1, k2, k3, k4, if_neg h]
    exact ⟨rfl, rfl, rfl, rfl⟩
  · rw [(key cb2 _).2.2.2, k1, k2, k3]
    simp

/-- C1 at `sampleRegistered`: the stored credentials keep the expiry at 1000,
a different password clears it. -/
theorem sip_register_idempotent_witness :
    (norm (some "reg.example") = sampleRegistered.ichost ∧
      norm (some "u") = sampleRegistered.icuser ∧ norm (some "p") = sampleRegistered.icpass) ∧
    (sip_register (some "reg.example") (some "u") (some "p") (some 1)
      sampleRegistered).regexpiry = 1000 ∧
    ¬ (norm (some "reg.example") = sampleRegistered.ichost ∧
      norm (some "u") = sampleRegistered.icuser ∧ norm (some "q") = sampleRegistered.icpass) ∧
    (sip_register (some "reg.example") (some "u") (some "q") (some 1)
      sampleRegistered).regexpiry = 0 :=
  ⟨by decide,
   ((sip_register_idempotent (some "reg.example") (some "u") (some "p") (some 1) (some 1)
      sampleRegistered).1 (by decide)).1,
   by decide,
   ((sip_register_idempotent (some "reg.example") (some "u") (some "q") (some 1) (some 1)
      sampleRegistered).2.1 (by decide)).1⟩

/-- C3 as stated fails: with a call in progress (`sampleOutgoing`) `sip_call`
returns the very value it returns when the request is accepted
(`sampleRegistered`). -/
theorem sip_call_same_result :
    sip_state_t.SIP_REGISTERED.val < sampleOutgoing.state.val ∧
    sampleRegistered.state.val ≤ sip_state_t.SIP_REGISTERED.val ∧
    (sip_call (some "100") (some "200@reg.example") none none none sampleRegistered).1.call
      = true ∧
    ¬ ((sip_call (some "100") (some "200@reg.example") none none none sampleOutgoing).2 ≠
      (sip_call (some "100") (some "200@reg.example") none none none sampleRegistered).2) := by
  decide

/-- C3 amended: `sip_call` returns 0 in every state; with a call in progress
(`state > SIP_REGISTERED`) it leaves the record as it is, and otherwise it
stores the normalised call parameters and sets the `call` flag. -/
theorem sip_call_returns_zero (cli uri proxy user pass : Option String) (sip : Session) :
    (sip_call cli uri proxy user pass sip).2 = 0 ∧
    (sip_state_t.SIP_REGISTERED.val < sip.state.val →
      (sip_call cli uri proxy user pass sip).1 = sip) ∧
    (sip.state.val ≤ sip_state_t.SIP_REGISTERED.val →
      (sip_call cli uri proxy user pass sip).1 =
        { sip with
          ogcli := norm cli
          oghost := norm proxy
          oguri := norm uri
          oguser := norm user
          ogpass := norm pass
          call := true }) := by
  refine ⟨rfl, ?_, ?_⟩
  · intro h
    have h2 : ¬ sip.state.val ≤ sip_state_t.SIP_REGISTERED.val := by omega
    simp [sip_call, h2]
  · intro h
    simp [sip_call, h, replacestring_fst]

/-- C3 amended, at `sampleOutgoing` (refused) and `sampleRegistered` (accepted). -/
theorem sip_call_returns_zero_witness :
    (sip_call (some "100") (some "200@reg.example") none none none sampleOutgoing).1
      = sampleOutgoing ∧
    (sip_call (some "100") (some "200@reg.example") none none none sampleRegistered).1
      = { sampleRegistered with
          ogcli := norm (some "100")
          oghost := norm none
          oguri := norm (some "200@reg.example")
          oguser := norm none
          ogpass := norm none
          call := true } :=
  ⟨(sip_call_returns_zero (some "100") (some "200@reg.example") none none none
      sampleOutgoing).2.1 (by decide),
   (sip_call_returns_zero (some "100") (some "200@reg.example") none none none
      sampleRegistered).2.2 (by decide)⟩

/-- C4: outside its valid state an API call leaves the whole record as it is
(`sip_answer` unless `state = SIP_IC_ALERT`, `sip_hangup` when
`state <= SIP_REGISTERED`, `sip_call` when `state > SIP_REGISTERED`); inside it
`sip_answer` only sets `answer` and `sip_hangup` only sets `hangup`. -/
theorem api_frame (cli uri proxy user pass : Option String) (sip : Session) :
    (sip.state ≠ .SIP_IC_ALERT → (sip_answer sip).1 = sip) ∧
    (sip.state.val ≤ sip_state_t.SIP_REGISTERED.val → (sip_hangup sip).1 = sip) ∧
    (sip_state_t.SIP_REGISTERED.val < sip.state.val →
      (sip_call cli uri proxy user pass sip).1 = sip) ∧
    (sip.state = .SIP_IC_ALERT → (sip_answer sip).1 = { sip with answer := true }) ∧
    (sip_state_t.SIP_REGISTERED.val < sip.state.val →
      (sip_hangup sip).1 = { sip with hangup := true }) := by
  refine ⟨?_, ?_, ?_, ?_, ?_⟩
  · intro h
    simp [sip_answer, h]
  · intro h
    have h2 : ¬ sip_state_t.SIP_REGISTERED.val < sip.state.val := by omega
    simp [sip_hangup, h2]
  · intro h
    have h2 : ¬ sip.state.val ≤ sip_state_t.SIP_REGISTERED.val := by omega
    simp [sip_call, h2]
  · intro h
    simp [sip_answer, h]
  · intro h
    simp [sip_hangup, h]

/-- C4 at the sample records: each of the five cases at a record in which its
condition holds. -/
theorem api_frame_witness :
    (sip_answer sampleRegistered).1 = sampleRegistered ∧
    (sip_hangup sampleRegistered).1 = sampleRegistered ∧
    (sip_call (some "100") (some "200@reg.example") none none none sampleOutgoing).1
      = sampleOutgoing ∧
    (sip_answer sampleAlerting).1 = { sampleAlerting with answer := true } ∧
    (sip_hangup sampleOutgoing).1 = { sampleOutgoing with hangup := true } :=
  ⟨(api_frame none none none none none sampleRegistered).1 (by decide),
   (api_frame none none none none none sampleRegistered).2.1 (by decide),
   (api_frame (some "100") (some "200@reg.example") none none none sampleOutgoing).2.2.1
     (by decide),
   (api_frame none none none none none sampleAlerting).2.2.2.1 (by decide),
   (api_frame none none none none none sampleOutgoing).2.2.2.2 (by decide)⟩

/-! ## One tick of the main loop -/

theorem registration_sip (now : Nat) (w : Loop) :
    (registration now w).sip = { w.sip with regexpiry := expired now w.sip.regexpiry } := by
  unfold registration expired
  by_cases h : w.sip.regexpiry < now <;> simp only [h, if_true, if_false] <;> split_ifs <;> rfl

theorem registration_state (now : Nat) (w : Loop) : (registration now w).state = w.state := by
  unfold registration
  by_cases h : w.sip.regexpiry < now <;> simp only [h, if_true, if_false] <;> split_ifs <;> rfl

theorem registration_notified (now : Nat) (w : Loop) :
    (registration now w).notified = w.notified := by
  unfold registration
  by_cases h : w.sip.regexpiry < now <;> simp only [h, if_true, if_false] <;> split_ifs <;> rfl

theorem periodic_sip (w : Loop) (st : sip_state_t) :
    (periodic w st).1.sip =
      { w.sip with call := if w.state = .TASK_IDLE then false else w.sip.call } := by
  obtain ⟨⟨_, _, _, _, _, _, _, _, _, _, _, _, _, _, c, _, _⟩, d, _, _, _, _⟩ := w
  cases d <;> cases c <;> simp [periodic]

theorem periodic_state (w : Loop) (st : sip_state_t) : (periodic w st).1.state = w.state := by
  unfold periodic
  cases hs : w.state <;> simp [hs]
  split_ifs <;> simp [hs]

theorem periodic_notified (w : Loop) (st : sip_state_t) :
    (periodic w st).1.notified = w.notified := by
  unfold periodic
  cases hs : w.state <;> simp
  split_ifs <;> rfl

theorem periodic_status (w : Loop) (st : sip_state_t) : (periodic w st).2 = specMap w.state := by
  unfold periodic specMap
  cases hs : w.state <;> simp

theorem reportStatus_eq_specDisplay (e : Nat) (s : sip_state_t) :
    reportStatus e s = specDisplay s e := by
  unfold reportStatus specDisplay
  by_cases h : e = 0 <;> cases s <;> simp [h]

theorem report_sip (w : Loop) (st : sip_state_t) :
    (report w st).sip =
      { w.sip with
        state := if w.sip.state ≠ reportStatus w.sip.regexpiry st ∧ w.sip.callback ≠ none
          then reportStatus w.sip.regexpiry st else w.sip.state
        answer := if (reportStatus w.sip.regexpiry st).val ≤ sip_state_t.SIP_REGISTERED.val
          then false else w.sip.answer
        hangup := if (reportStatus w.sip.regexpiry st).val ≤ sip_state_t.SIP_REGISTERED.val
          then false else w.sip.hangup } := by
  obtain ⟨⟨_, _, _, _, _, _, _, _, _, _, _, _, _, _, _, _, _⟩, _, _, _, _, _⟩ := w
  simp only [report]
  split_ifs <;> simp_all

theorem report_state (w : Loop) (st : sip_state_t) : (report w st).state = w.state := by
  simp only [report]
  split_ifs <;> rfl

theorem report_notified (w : Loop) (st : sip_state_t) :
    (report w st).notified =
      w.notified ++
        (if w.sip.state ≠ reportStatus w.sip.regexpiry st ∧ w.sip.callback ≠ none
          then [reportStatus w.sip.regexpiry st] else []) := by
  simp only [report]
  split_ifs <;> simp_all

theorem tickStatus_eq (us : Nat) (w : Loop) :
    tickStatus us w = reportStatus (expired (uptime us) w.sip.regexpiry) (specMap w.state) := by
  simp only [tickStatus, periodic_sip, registration_sip, periodic_status, registration_state]

theorem tick_sip (us : Nat) (w : Loop) :
    (tick us w).sip =
      { w.sip with
        regexpiry := expired (uptime us) w.sip.regexpiry
        call := if w.state = .TASK_IDLE then false else w.sip.call
        state := if w.sip.state ≠ tickStatus us w ∧ w.sip.callback ≠ none
          then tickStatus us w else w.sip.state
        answer := if (tickStatus us w).val ≤ sip_state_t.SIP_REGISTERED.val
          then false else w.sip.answer
        hangup := if (tickStatus us w).val ≤ sip_state_t.SIP_REGISTERED.val
          then false else w.sip.hangup } := by
  simp only [tick, tickStatus_eq, report_sip, periodic_sip, registration_sip, periodic_status,
    registration_state]

theorem tick_state (us : Nat) (w : Loop) : (tick us w).state = w.state := by
  simp only [tick, report_state, periodic_state, registration_state]

theorem tick_notified (us : Nat) (w : Loop) :
    (tick us w).notified =
      w.notified ++
        (if w.sip.state ≠ tickStatus us w ∧ w.sip.callback ≠ none
          then [tickStatus us w] else []) := by
  simp only [tick, tickStatus_eq, report_notified, periodic_sip, registration_sip,
    periodic_status, registration_state, periodic_notified, registration_notified]

/-- C5 on the code: a tick that starts with the dialog state `TASK_IDLE`, the
`call` flag set and the call parameters present clears the flag but leaves the
dialog state `TASK_IDLE`; it does not become `TASK_OG_INVITE`. -/
theorem tick_drops_call_request :
    sampleDialling.state = .TASK_IDLE ∧ sampleDialling.sip.call = true ∧
    sampleDialling.sip.oguri = some "200@reg.example" ∧
    (tick 5000000 sampleDialling).sip.call = false ∧
    (tick 5000000 sampleDialling).state = .TASK_IDLE ∧
    (tick 5000000 sampleDialling).state ≠ .TASK_OG_INVITE := by
  decide

/-- C7: the status a tick computes is `specDisplay (specMap d) e` for the dialog
state `d` and the value `e` of `regexpiry` after the expiry check; it is
`SIP_REGISTERED` exactly when the mapped state is `SIP_IDLE` and `e` is not 0. -/
theorem tick_status_display (us : Nat) (w : Loop) :
    tickStatus us w = specDisplay (specMap w.state) (expired (uptime us) w.sip.regexpiry) ∧
    (tickStatus us w = .SIP_REGISTERED ↔
      specMap w.state = .SIP_IDLE ∧ expired (uptime us) w.sip.regexpiry ≠ 0) := by
  rw [tickStatus_eq, reportStatus_eq_specDisplay]
  refine ⟨rfl, ?_⟩
  generalize expired (uptime us) w.sip.regexpiry = e
  unfold specDisplay specMap
  by_cases h : e = 0 <;> cases w.state <;> simp [h]

/-- C9: a tick whose computed status is at or below `SIP_REGISTERED` leaves
`answer` and `hangup` clear; one whose computed status is above it leaves both
flags as they were; so a flag that is set after a tick implies a computed
status above `SIP_REGISTERED`. -/
theorem tick_clears_flags (us : Nat) (w : Loop) :
    ((tickStatus us w).val ≤ sip_state_t.SIP_REGISTERED.val →
      (tick us w).sip.answer = false ∧ (tick us w).sip.hangup = false) ∧
    (sip_state_t.SIP_REGISTERED.val < (tickStatus us w).val →
      (tick us w).sip.answer = w.sip.answer ∧ (tick us w).sip.hangup = w.sip.hangup) ∧
    ((tick us w).sip.answer = true ∨ (tick us w).sip.hangup = true →
      sip_state_t.SIP_REGISTERED.val < (tickStatus us w).val) := by
  rw [tick_sip]
  by_cases h : (tickStatus us w).val ≤ sip_state_t.SIP_REGISTERED.val
  · simp [h]
  · have h2 : sip_state_t.SIP_REGISTERED.val < (tickStatus us w).val := by omega
    simp [h, h2]

/-- C9 at `sampleStale` (status `SIP_REGISTERED`, flags cleared) and at
`sampleRinging` (status `SIP_IC_ALERT`, flags kept and set). -/
theorem tick_clears_flags_witness :
    ((tick 5000000 sampleStale).sip.answer = false ∧
      (tick 5000000 sampleStale).sip.hangup = false) ∧
    ((tick 5000000 sampleRinging).sip.answer = sampleRinging.sip.answer ∧
      (tick 5000000 sampleRinging).sip.hangup = sampleRinging.sip.hangup) ∧
    sip_state_t.SIP_REGISTERED.val < (tickStatus 5000000 sampleRinging).val :=
  ⟨(tick_clears_flags 5000000 sampleStale).1 (by decide),
   (tick_clears_flags 5000000 sampleRinging).2.1 (by decide),
   (tick_clears_flags 5000000 sampleRinging).2.2 (Or.inl (by decide))⟩

/-! ## Sequences of events -/

theorem sip_register_frame (host user pass : Option String) (cb : Option Nat) (sip : Session) :
    (sip_register host user pass cb sip).state = sip.state ∧
    (sip_register host user pass cb sip).answer = sip.answer ∧
    (sip_register host user pass cb sip).hangup = sip.hangup ∧
    ((sip_register host user pass cb sip).regexpiry = sip.regexpiry ∨
      (sip_register host user pass cb sip).regexpiry = 0) := by
  unfold sip_register
  by_cases h4 : sip.task = false <;> simp only [h4, if_true, if_false] <;> split_ifs <;> simp

theorem sip_call_frame (cli uri proxy user pass : Option String) (sip : Session) :
    (sip_call cli uri proxy user pass sip).1.state = sip.state ∧
    (sip_call cli uri proxy user pass sip).1.answer = sip.answer ∧
    (sip_call cli uri proxy user pass sip).1.hangup = sip.hangup ∧
    (sip_call cli uri proxy user pass sip).1.regexpiry = sip.regexpiry := by
  unfold sip_call
  split_ifs <;> simp

theorem sip_answer_frame (sip : Session) :
    (sip_answer sip).1.state = sip.state ∧ (sip_answer sip).1.hangup = sip.hangup ∧
    (sip_answer sip).1.regexpiry = sip.regexpiry ∧
    (sip.state ≠ .SIP_IC_ALERT → (sip_answer sip).1.answer = sip.answer) := by
  unfold sip_answer
  split_ifs with h <;> simp [h]

theorem sip_hangup_frame (sip : Session) :
    (sip_hangup sip).1.state = sip.state ∧ (sip_hangup sip).1.answer = sip.answer ∧
    (sip_hangup sip).1.regexpiry = sip.regexpiry ∧
    (sip.state.val ≤ sip_state_t.SIP_REGISTERED.val →
      (sip_hangup sip).1.hangup = sip.hangup) := by
  unfold sip_hangup
  split_ifs with h
  · refine ⟨rfl, rfl, rfl, ?_⟩
    intro h2
    omega
  · simp

theorem step_state_notified_of_api (w : Loop) (e : Event) (h : ∀ us, e ≠ .tick us) :
    (step w e).sip.state = w.sip.state ∧ (step w e).notified = w.notified := by
  cases e with
  | register host user pass cb => exact ⟨(sip_register_frame host user pass cb w.sip).1, rfl⟩
  | call cli uri proxy user pass => exact ⟨(sip_call_frame cli uri proxy user pass w.sip).1, rfl⟩
  | answer => exact ⟨(sip_answer_frame w.sip).1, rfl⟩
  | hangup => exact ⟨(sip_hangup_frame w.sip).1, rfl⟩
  | datagram len => exact ⟨rfl, rfl⟩
  | tick us => exact absurd rfl (h us)

theorem reported_step (w : Loop) (e : Event) (h : Reported w) : Reported (step w e) := by
  by_cases ht : ∃ us, e = .tick us
  · obtain ⟨us, rfl⟩ := ht
    show Reported (tick us w)
    unfold Reported
    rw [tick_notified, tick_sip]
    by_cases hc : w.sip.state ≠ tickStatus us w ∧ w.sip.callback ≠ none
    · simp only [hc, and_self, if_true, ne_eq, not_false_eq_true]
      refine ⟨?_, ?_⟩
      · refine List.chain'_append.2 ⟨h.1, List.chain'_singleton _, ?_⟩
        intro x hx y hy
        simp only [List.head?_cons, Option.mem_def, Option.some.injEq] at hy
        subst hy
        rw [h.2 x hx]
        exact hc.1
      · intro x hx
        simp only [List.getLast?_concat, Option.mem_def, Option.some.injEq] at hx
        exact hx.symm
    · simp only [hc, if_false, List.append_nil]
      exact h
  · have hne : ∀ us, e ≠ .tick us := fun us he => ht ⟨us, he⟩
    obtain ⟨h1, h2⟩ := step_state_notified_of_api w e hne
    unfold Reported
    rw [h1, h2]
    exact h

theorem reported_run (evs : List Event) (w : Loop) (h : Reported w) : Reported (run evs w) := by
  induction evs generalizing w with
  | nil => exact h
  | cons e evs ih => exact ih (step w e) (reported_step w e h)

/-- C6: in a tick with a callback registered, the callback is called, once
and with the computed status, exactly when that status differs from the
stored `sip.state`, and after the tick `sip.state` is the computed status;
and over any sequence of events that starts with nothing reported, no two
consecutive calls of the callback carry the same status. -/
theorem tick_notifies_on_change (us : Nat) (w : Loop) (h : w.sip.callback ≠ none) :
    (tick us w).notified =
      w.notified ++ (if tickStatus us w ≠ w.sip.state then [tickStatus us w] else []) ∧
    (tick us w).sip.state = tickStatus us w ∧
    ∀ (evs : List Event) (w0 : Loop),
      List.Chain' (fun a b => a ≠ b) (run evs { w0 with notified := [] }).notified := by
  refine ⟨?_, ?_, ?_⟩
  · rw [tick_notified]
    by_cases hs : w.sip.state = tickStatus us w
    · simp [hs]
    · have hs2 : ¬ tickStatus us w = w.sip.state := fun e => hs e.symm
      simp [hs, hs2, h]
  · rw [tick_sip]
    by_cases hs : w.sip.state = tickStatus us w
    · simp [hs]
    · simp [hs, h]
  · intro evs w0
    refine (reported_run evs _ ⟨List.chain'_nil, ?_⟩).1
    intro x hx
    simp at hx

/-- C6 at `sampleStale`: the stored state is `SIP_IC_ALERT`, the tick computes
`SIP_REGISTERED`, calls the callback once with it and stores it. -/
theorem tick_notifies_on_change_witness :
    sampleStale.sip.callback ≠ none ∧
    (tick 5000000 sampleStale).notified =
      sampleStale.notified ++
        (if tickStatus 5000000 sampleStale ≠ sampleStale.sip.state
          then [tickStatus 5000000 sampleStale] else []) ∧
    (tick 5000000 sampleStale).sip.state = tickStatus 5000000 sampleStale ∧
    (tick 5000000 sampleStale).notified = [.SIP_REGISTERED] :=
  ⟨by decide,
   (tick_notifies_on_change 5000000 sampleStale (by decide)).1,
   (tick_notifies_on_change 5000000 sampleStale (by decide)).2.1,
   by decide⟩

theorem quiet_tickStatus (us : Nat) (w : Loop) (h : Quiet w) : tickStatus us w = .SIP_IDLE := by
  obtain ⟨h1, h2, -⟩ := h
  rw [tickStatus_eq, h1, h2]
  simp [expired, specMap, reportStatus]

theorem quiet_step (w : Loop) (e : Event) (h : Quiet w) : Quiet (step w e) := by
  obtain ⟨h1, h2, h3, h4, h5, h6⟩ := h
  cases e with
  | register host user pass cb =>
    obtain ⟨f1, f2, f3, f4⟩ := sip_register_frame host user pass cb w.sip
    refine ⟨h1, ?_, f1.trans h3, f2.trans h4, f3.trans h5, h6⟩
    rcases f4 with f4 | f4
    · exact f4.trans h2
    · exact f4
  | call cli uri proxy user pass =>
    obtain ⟨f1, f2, f3, f4⟩ := sip_call_frame cli uri proxy user pass w.sip
    exact ⟨h1, f4.trans h2, f1.trans h3, f2.trans h4, f3.trans h5, h6⟩
  | answer =>
    obtain ⟨f1, f2, f3, f4⟩ := sip_answer_frame w.sip
    refine ⟨h1, f3.trans h2, f1.trans h3, (f4 ?_).trans h4, f2.trans h5, h6⟩
    rw [h3]
    decide
  | hangup =>
    obtain ⟨f1, f2, f3, f4⟩ := sip_hangup_frame w.sip
    refine ⟨h1, f3.trans h2, f1.trans h3, f2.trans h4, (f4 ?_).trans h5, h6⟩
    rw [h3]
    decide
  | datagram len => exact ⟨h1, h2, h3, h4, h5, h6⟩
  | tick us =>
    have hs := quiet_tickStatus us w ⟨h1, h2, h3, h4, h5, h6⟩
    show Quiet (tick us w)
    unfold Quiet
    rw [tick_state, tick_notified, tick_sip, hs, h3]
    simp [h1, h2, h6, expired, sip_state_t.val]

theorem quiet_run (evs : List Event) (w : Loop) (h : Quiet w) : Quiet (run evs w) := by
  induction evs generalizing w with
  | nil => exact h
  | cons e evs ih => exact ih (step w e) (quiet_step w e h)

/-- C10: from the zero-initialised record and the dialog state `TASK_IDLE`,
after any finite sequence of API calls, datagram iterations and ticks the
dialog state is `TASK_IDLE`, `regexpiry` is 0, `sip.state` is `SIP_IDLE`, the
`answer` and `hangup` flags are clear and the callback has never been called. -/
theorem program_stays_idle (evs : List Event) :
    (run evs (Loop.start Session.zero)).state = .TASK_IDLE ∧
    (run evs (Loop.start Session.zero)).sip.regexpiry = 0 ∧
    (run evs (Loop.start Session.zero)).sip.state = .SIP_IDLE ∧
    (run evs (Loop.start Session.zero)).sip.answer = false ∧
    (run evs (Loop.start Session.zero)).sip.hangup = false ∧
    (run evs (Loop.start Session.zero)).notified = [] :=
  quiet_run evs (Loop.start Session.zero) ⟨rfl, rfl, rfl, rfl, rfl, rfl⟩

/-! ## Registration backoff -/

theorem pow_small (n : Nat) (h : n ≤ 8) : 2 ^ n ≤ 256 :=
  (Nat.pow_le_pow_right (by decide) h).trans (by decide)

theorem pow_large (n : Nat) (h : 9 ≤ n) : 512 ≤ 2 ^ n :=
  Nat.le_trans (by decide) (Nat.pow_le_pow_right (by decide) h)

theorem registration_timer (now : Nat) (w : Loop) :
    ((registration now w).backoff = w.backoff ∧ (registration now w).attempts = w.attempts) ∨
    ((registration now w).backoff =
        (if (if w.backoff = 0 then 1 else w.backoff) < 300
          then ((if w.backoff = 0 then 1 else w.backoff) * 2) % 4294967296
          else (if w.backoff = 0 then 1 else w.backoff)) ∧
      (registration now w).attempts =
        w.attempts ++ [(now, (now + (if w.backoff = 0 then 1 else w.backoff)) % 4294967296)]) := by
  unfold registration
  by_cases h : w.sip.regexpiry < now <;> simp only [h, if_true, if_false] <;> split_ifs <;> simp

theorem delay_attempt (now b : Nat) (h : b ≤ 512) :
    delay (now, (now + b) % 4294967296) = b := by
  unfold delay
  simp only
  omega

theorem scheduled_registration (now : Nat) (w : Loop) (h : Scheduled w) :
    Scheduled (registration now w) := by
  obtain ⟨hb, hd⟩ := h
  rcases registration_timer now w with ⟨e1, e2⟩ | ⟨e1, e2⟩
  · unfold Scheduled
    rw [e1, e2]
    exact ⟨hb, hd⟩
  · have hpos : 0 < 2 ^ w.attempts.length := Nat.pos_of_ne_zero (pow_ne_zero _ (by decide))
    have hb0 : (if w.backoff = 0 then 1 else w.backoff) = min (2 ^ w.attempts.length) 512 := by
      rw [hb]
      by_cases hl : w.attempts.length = 0
      · simp [hl]
      · have : min (2 ^ w.attempts.length) 512 ≠ 0 := by omega
        simp [hl, this]
    rw [hb0] at e1 e2
    unfold Scheduled
    rw [e1, e2]
    refine ⟨?_, ?_⟩
    · simp only [List.length_append, List.length_singleton, Nat.add_one_ne_zero, if_false]
      rw [pow_succ]
      by_cases hn : w.attempts.length ≤ 8
      · have := pow_small _ hn
        have h1 : min (2 ^ w.attempts.length) 512 = 2 ^ w.attempts.length := by omega
        rw [h1]
        have h2 : 2 ^ w.attempts.length < 300 := by omega
        rw [if_pos h2]
        omega
      · have := pow_large w.attempts.length (by omega)
        have h1 : min (2 ^ w.attempts.length) 512 = 512 := by omega
        rw [h1]
        simp only [Nat.lt_irrefl, if_false, show ¬ (512 < 300) by decide]
        omega
    · intro k a hk
      by_cases hlt : k < w.attempts.length
      · rw [List.getElem?_append_left hlt] at hk
        exact hd k a hk
      · have hge : w.attempts.length ≤ k := by omega
        rw [List.getElem?_append_right hge] at hk
        by_cases hk0 : k - w.attempts.length = 0
        · have hkl : k = w.attempts.length := by omega
          rw [hk0] at hk
          simp only [List.getElem?_cons_zero, Option.some.injEq] at hk
          rw [← hk, hkl]
          exact delay_attempt now _ (Nat.min_le_right _ _)
        · obtain ⟨j, hj⟩ := Nat.exists_eq_succ_of_ne_zero hk0
          rw [hj] at hk
          simp at hk

theorem periodic_timer (w : Loop) (st : sip_state_t) :
    (periodic w st).1.backoff = w.backoff ∧ (periodic w st).1.attempts = w.attempts := by
  unfold periodic
  cases hs : w.state <;> simp
  split_ifs <;> exact ⟨rfl, rfl⟩

theorem report_timer (w : Loop) (st : sip_state_t) :
    (report w st).backoff = w.backoff ∧ (report w st).attempts = w.attempts := by
  simp only [report]
  split_ifs <;> exact ⟨rfl, rfl⟩

theorem scheduled_step (w : Loop) (e : Event) (h : Scheduled w) : Scheduled (step w e) := by
  cases e with
  | register host user pass cb => exact h
  | call cli uri proxy user pass => exact h
  | answer => exact h
  | hangup => exact h
  | datagram len => exact h
  | tick us =>
    have hr := scheduled_registration (uptime us) w h
    have e1 : (tick us w).backoff = (registration (uptime us) w).backoff := by
      simp only [tick, (report_timer _ _).1, (periodic_timer _ _).1]
    have e2 : (tick us w).attempts = (registration (uptime us) w).attempts := by
      simp only [tick, (report_timer _ _).2, (periodic_timer _ _).2]
    show Scheduled (tick us w)
    unfold Scheduled at hr ⊢
    rw [e1, e2]
    exact hr

theorem scheduled_run (evs : List Event) (w : Loop) (h : Scheduled w) :
    Scheduled (run evs w) := by
  induction evs generalizing w with
  | nil => exact h
  | cons e evs ih => exact ih (step w e) (scheduled_step w e h)

set_option maxRecDepth 100000 in
/-- C2 as stated fails: ten attempts in a row schedule the delays
1, 2, 4, ..., 256, 512; the tenth delay is 512, not `min (2 ^ 9) 300`, and both
it and the stored `backoff` exceed 300. -/
theorem backoff_exceeds_300 :
    (run backoffEvents (Loop.start Session.zero)).attempts.map delay =
      [1, 2, 4, 8, 16, 32, 64, 128, 256, 512] ∧
    ¬ (∀ (k : Nat) (a : Nat × Nat), (run backoffEvents (Loop.start Session.zero)).attempts[k]? = some a →
        delay a = min (2 ^ k) 300) ∧
    ¬ (∀ (k : Nat) (a : Nat × Nat), (run backoffEvents (Loop.start Session.zero)).attempts[k]? = some a →
        delay a ≤ 300) ∧
    ¬ ((run backoffEvents (Loop.start Session.zero)).backoff ≤ 300) := by
  have ha : (run backoffEvents (Loop.start Session.zero)).attempts =
      [(1, 2), (3, 5), (6, 10), (11, 19), (20, 36), (37, 69), (70, 134), (135, 263),
       (264, 520), (521, 1033)] := by decide
  have hb : (run backoffEvents (Loop.start Session.zero)).backoff = 512 := by decide
  rw [ha, hb]
  refine ⟨by decide, ?_, ?_, by decide⟩
  · intro h
    exact absurd (h 9 (521, 1033) rfl) (by decide)
  · intro h
    exact absurd (h 9 (521, 1033) rfl) (by decide)

/-- C2 amended: starting from `backoff = 0`, over any sequence of events the
attempt at zero-based position `k` (the `k+1`-th attempt) schedules the delay
`retry - now = min (2 ^ k) 512`, that is 1, 2, 4, ..., 256 and 512 from the
tenth attempt on; neither a scheduled delay nor the stored `backoff` ever
exceeds 512. -/
theorem backoff_schedule (evs : List Event) (w : Loop) (hb : w.backoff = 0)
    (ha : w.attempts = []) :
    (∀ (k : Nat) (a : Nat × Nat), (run evs w).attempts[k]? = some a →
      delay a = min (2 ^ k) 512 ∧ delay a ≤ 512) ∧
    (run evs w).backoff ≤ 512 := by
  have h0 : Scheduled w := by
    unfold Scheduled
    rw [hb, ha]
    simp
  obtain ⟨h1, h2⟩ := scheduled_run evs w h0
  refine ⟨?_, ?_⟩
  · intro k a hk
    have := h2 k a hk
    exact ⟨this, by omega⟩
  · rw [h1]
    split_ifs <;> omega

/-- C2 amended, at the ten attempts of `backoffEvents`. -/
theorem backoff_schedule_witness :
    (Loop.start Session.zero).backoff = 0 ∧ (Loop.start Session.zero).attempts = [] ∧
    (∀ (k : Nat) (a : Nat × Nat), (run backoffEvents (Loop.start Session.zero)).attempts[k]? = some a →
      delay a = min (2 ^ k) 512 ∧ delay a ≤ 512) ∧
    (run backoffEvents (Loop.start Session.zero)).backoff ≤ 512 :=
  ⟨rfl, rfl, backoff_schedule backoffEvents (Loop.start Session.zero) rfl rfl⟩

end SIP
